import Mathlib

/-!
Shallow embedding of `summarize_model.py` (FNAserver): a media-to-report
pipeline — audio extraction → transcription → keyword summarization →
PDF rendering.  External effects (the ffmpeg process launch, the remote
speech-recognition service, and the reportlab renderer) are modelled as
an explicit environment of oracles; Python exceptions are modelled as
`Except String` with the exception's `str()` text as the error value.
Python dicts with string keys/values are modelled as ordered association
lists (Python 3.7+ dicts preserve insertion order).
-/

namespace FNA

/-- A Python dict with string keys and string values, in insertion order. -/
abbrev Dict := List (String × String)

/-- `data.get(key, default)`: the stored value when the key is present,
otherwise the default. -/
def dictGet (d : Dict) (key dflt : String) : String :=
  match d.lookup key with
  | some v => v
  | none => dflt

/-- `isPrefixL key s`: `key` is a prefix of `s` (character lists). -/
def isPrefixL : List Char → List Char → Bool
  | [], _ => true
  | _ :: _, [] => false
  | a :: as, b :: bs => a == b && isPrefixL as bs

/-- `containsSub key s`: `key` occurs as a contiguous substring of `s`
(character lists) — the semantics of Python's `key in s` on strings. -/
def containsSub (key : List Char) : List Char → Bool
  | [] => isPrefixL key []
  | c :: t => isPrefixL key (c :: t) || containsSub key t

/-- Python `needle in hay` for strings: substring containment. -/
def strContains (hay needle : String) : Bool :=
  containsSub needle.toList hay.toList

/-- Python `s.lower()` (ASCII-faithful): lower-case every character. -/
def strLower (s : String) : String :=
  String.mk (s.data.map Char.toLower)

/-- A Python value passed as `transcript`: either an actual string or a
non-string object, on which `.lower()` raises an `AttributeError` whose
`str()` text we carry abstractly. -/
inductive PyVal where
  | str (s : String)
  | nonStr (errText : String)

/-- The keyword → explanation mapping of `generate_detailed_info`
(lines 141-145), in the dict's enumeration (insertion) order. -/
def explanations : List (String × String) :=
  [("conflict", "This video discusses ongoing tensions related to regional conflicts, which have drawn international attention."),
   ("environment", "The environmental impacts mentioned in the transcript highlight critical issues facing our planet today."),
   ("economy", "Economic discussions often relate to market fluctuations and their broader implications for global trade.")]

/-- The loop of lines 148-151: for each key of the mapping in order,
if the key occurs in `transcript.lower()`, collect its explanation. -/
def relevantExplanations (transcript : String) : List String :=
  (explanations.filter fun p => strContains (strLower transcript) p.1).map Prod.snd

/-- The fixed preamble of the summary (line 156). -/
def summaryPreamble : String :=
  "In summary, this video provides insights on the following key themes: "

/-- The fixed closing sentence of the summary (line 158; in the source the
two adjacent literals `" " "This..."` concatenate, so a single space
separates the joined explanations from this sentence). -/
def summaryClosing : String :=
  "This highlights the importance of these issues and encourages further discussion."

/-- The body of the `try` block of `generate_detailed_info` (lines 140-164):
succeeds with the description/summary dict for a string transcript; for a
non-string transcript, `transcript.lower()` at line 150 raises. -/
def genBody : PyVal → Except String Dict
  | .str s =>
      let rel := relevantExplanations s
      .ok [("description", s ++ "."),
           ("summary", summaryPreamble ++ String.intercalate " " rel
                         ++ " " ++ summaryClosing)]
  | .nonStr e => .error e

/-- `generate_detailed_info` (lines 137-171): runs the body and converts any
internal error into the fixed-description / error-summary dict
(lines 166-171); it never raises. -/
def generate_detailed_info (transcript : PyVal) : Dict :=
  match genBody transcript with
  | .ok d => d
  | .error e =>
      [("description", "Error generating detailed information."),
       ("summary", e)]

/-- Outcome of `recognizer.record` + `recognizer.recognize_google` on an
audio path: recognized text, `sr.UnknownValueError`, `sr.RequestError`
with message, or any other exception (e.g. a missing file) with message. -/
inductive RecogOutcome where
  | ok (text : String)
  | unknownValue
  | requestError (msg : String)
  | raised (msg : String)

/-- A reportlab flowable appended to `elements` in `generate_pdf`. -/
inductive Element where
  | title (s : String)
  | heading (s : String)
  | body (s : String)
  | spacer (w h : Nat)
deriving DecidableEq

/-- The external world: the ffmpeg process launch (returns an exit code, or
raises on launch failure), the speech-recognition backend, and the
reportlab `pdf.build` call (which may raise). -/
structure Env where
  ffmpeg : String → Except String Int
  recog : String → RecogOutcome
  render : List Element → Except String Unit

/-- `os.path.basename` for POSIX paths: the component after the last `/`
(the whole path when it has no `/`). -/
def basename (p : String) : String :=
  String.mk ((p.data.reverse.takeWhile fun c => c != '/').reverse)

/-- The audio path computed at line 116: `processed/<basename(video)>.wav`. -/
def audioPathOf (videoPath : String) : String :=
  "processed/" ++ basename videoPath ++ ".wav"

/-- `extract_audio` (lines 113-122): computes the audio path, launches
ffmpeg via `subprocess.call` (whose return value — the exit status — is
ignored), and returns the path; a launch failure is re-raised. -/
def extract_audio (env : Env) (videoPath : String) : Except String String :=
  match env.ffmpeg videoPath with
  | .ok _ => .ok (audioPathOf videoPath)
  | .error e => .error e

/-- `speech_to_text` (lines 124-135): recognized text is returned as-is;
`sr.UnknownValueError` and `sr.RequestError` are converted to sentinel
strings; any other exception propagates. -/
def speech_to_text (env : Env) (audioPath : String) : Except String String :=
  match env.recog audioPath with
  | .ok t => .ok t
  | .unknownValue => .ok "Speech Recognition could not understand audio."
  | .requestError e =>
      .ok ("Could not request results from Speech Recognition service; " ++ e)
  | .raised e => .error e

/-- `process_video` (lines 94-111): extract audio, transcribe, summarize;
any exception from the stages is caught and replaced by the degraded
dict `{"description": "Error processing video.", "summary": str(e)}`. -/
def process_video (env : Env) (filePath : String) : Dict :=
  match extract_audio env filePath with
  | .error e => [("description", "Error processing video."), ("summary", e)]
  | .ok audioPath =>
    match speech_to_text env audioPath with
    | .error e => [("description", "Error processing video."), ("summary", e)]
    | .ok transcript => generate_detailed_info (.str transcript)

/-- The fixed output path of the PDF (line 57). -/
def pdfPath : String := "processed/video_summary.pdf"

/-- The flowable sequence built at lines 64-82, top to bottom. -/
def pdfElements (description summary : String) : List Element :=
  [.title "Video Analysis Summary", .spacer 1 12,
   .heading "Description:", .spacer 1 6, .body description, .spacer 1 12,
   .heading "Summary:", .spacer 1 6, .body summary]

/-- `generate_pdf` (lines 50-92): reads `description` / `summary` from the
dict with the coded defaults, builds the flowables, renders to the fixed
path; a rendering error is re-raised as an HTTP 500 with the prefixed
detail text. -/
def generate_pdf (env : Env) (data : Dict) : Except String String :=
  let description := dictGet data "description" ""
  let summary := dictGet data "summary" "No summary available."
  match env.render (pdfElements description summary) with
  | .ok _ => .ok pdfPath
  | .error e => .error ("Internal Server Error: " ++ e)

/-- The pipeline of `upload_video` (lines 41-42): `process_video` followed
by `generate_pdf`. -/
def pipeline (env : Env) (filePath : String) : Except String String :=
  generate_pdf env (process_video env filePath)

end FNA
namespace FNA

/-- Claim C3: the success path of the Summarizer sets `description` to the
transcript with exactly one period appended, with no special-casing; on the
sentinel-like transcript "The local economy is struggling." the description
carries a doubled period. -/
theorem summarizer_description_appends_period (t : String) :
    (generate_detailed_info (.str t)).lookup "description" = some (t ++ ".")
    ∧ (generate_detailed_info
        (.str "The local economy is struggling.")).lookup "description"
      = some "The local economy is struggling.." := by
  constructor
  · rfl
  · rfl

/-- Claim C4: when no configured keyword occurs (case-insensitively) in the
transcript, the summary is exactly the preamble followed by the closing
sentence, with a double space where the empty explanation list was joined. -/
theorem summarizer_no_match_summary (t : String)
    (h1 : strContains (strLower t) "conflict" = false)
    (h2 : strContains (strLower t) "environment" = false)
    (h3 : strContains (strLower t) "economy" = false) :
    (generate_detailed_info (.str t)).lookup "summary"
      = some "In summary, this video provides insights on the following key themes:  This highlights the importance of these issues and encourages further discussion." := by
  have hrel : relevantExplanations t = [] := by
    simp [relevantExplanations, explanations, h1, h2, h3]
  simp only [generate_detailed_info, genBody, hrel]
  rfl

theorem summarizer_no_match_summary_witness :
    (generate_detailed_info (.str "hello world")).lookup "summary"
      = some "In summary, this video provides insights on the following key themes:  This highlights the importance of these issues and encourages further discussion." :=
  summarizer_no_match_summary "hello world" (by decide) (by decide) (by decide)

end FNA

/-- Environment whose recognizer returns recognized text. -/
def envRecogOk : FNA.Env :=
  ⟨fun _ => .ok 0, fun _ => .ok "hello transcript", fun _ => .ok ()⟩

/-- Environment whose recognizer raises `sr.UnknownValueError`. -/
def envRecogUnknown : FNA.Env :=
  ⟨fun _ => .ok 0, fun _ => .unknownValue, fun _ => .ok ()⟩

/-- Environment whose recognizer raises `sr.RequestError`. -/
def envRecogRequest : FNA.Env :=
  ⟨fun _ => .ok 0, fun _ => .requestError "service down", fun _ => .ok ()⟩

/-- Environment whose recognizer raises some other exception. -/
def envRecogRaised : FNA.Env :=
  ⟨fun _ => .ok 0, fun _ => .raised "bad file", fun _ => .ok ()⟩

namespace FNA

/-- Claim C5: `speech_to_text` maps unintelligible audio to the literal
sentinel, maps a recognition-service error to the prefixed sentinel
embedding the error text, returns recognized text as-is, and lets any
other exception propagate as an error. -/
theorem transcriber_sentinels (env : Env) (audioPath : String) :
    (env.recog audioPath = .unknownValue →
      speech_to_text env audioPath
        = .ok "Speech Recognition could not understand audio.")
    ∧ (∀ e, env.recog audioPath = .requestError e →
      speech_to_text env audioPath
        = .ok ("Could not request results from Speech Recognition service; " ++ e))
    ∧ (∀ t, env.recog audioPath = .ok t →
      speech_to_text env audioPath = .ok t)
    ∧ (∀ e, env.recog audioPath = .raised e →
      speech_to_text env audioPath = .error e) := by
  refine ⟨fun h => ?_, fun e h => ?_, fun t h => ?_, fun e h => ?_⟩ <;>
    simp [speech_to_text, h]

theorem transcriber_sentinels_witness :
    speech_to_text envRecogUnknown "a.wav"
      = .ok "Speech Recognition could not understand audio."
    ∧ speech_to_text envRecogRequest "a.wav"
      = .ok ("Could not request results from Speech Recognition service; " ++ "service down")
    ∧ speech_to_text envRecogOk "a.wav" = .ok "hello transcript"
    ∧ speech_to_text envRecogRaised "a.wav" = .error "bad file" :=
  ⟨(transcriber_sentinels envRecogUnknown "a.wav").1 rfl,
   (transcriber_sentinels envRecogRequest "a.wav").2.1 "service down" rfl,
   (transcriber_sentinels envRecogOk "a.wav").2.2.1 "hello transcript" rfl,
   (transcriber_sentinels envRecogRaised "a.wav").2.2.2 "bad file" rfl⟩

/-- Claim C6: whenever the ffmpeg launch succeeds — whatever the exit code —
`extract_audio` returns `processed/<basename(mediaPath)>.wav` without
inspecting the exit status or the file system, and the returned path is a
function of the input basename only. -/
theorem extractor_path_unconditional (env env2 : Env) (p p2 : String)
    (c c2 : Int) (h : env.ffmpeg p = .ok c) (h2 : env2.ffmpeg p2 = .ok c2) :
    extract_audio env p = .ok (audioPathOf p)
    ∧ (basename p2 = basename p →
        extract_audio env2 p2 = extract_audio env p) := by
  constructor
  · simp [extract_audio, h]
  · intro hb
    simp [extract_audio, h, h2, audioPathOf, hb]

theorem extractor_path_unconditional_witness :
    extract_audio envRecogOk "uploads/v.mp4" = .ok (audioPathOf "uploads/v.mp4")
    ∧ extract_audio envRecogRaised "other/v.mp4"
      = extract_audio envRecogOk "uploads/v.mp4" :=
  ⟨(extractor_path_unconditional envRecogOk envRecogRaised "uploads/v.mp4"
      "other/v.mp4" 0 0 rfl rfl).1,
   (extractor_path_unconditional envRecogOk envRecogRaised "uploads/v.mp4"
      "other/v.mp4" 0 0 rfl rfl).2 (by decide)⟩

/-- Claim C7: the Summarizer never raises past its boundary: it is a total
function of its (possibly non-string) input; any internal error — which
occurs exactly on non-string inputs — is converted into the dict whose
description is the fixed failure message and whose summary is the error
text, and on string inputs the body succeeds. -/
theorem summarizer_never_raises (v : PyVal) :
    (∀ e, genBody v = .error e →
      generate_detailed_info v
        = [("description", "Error generating detailed information."),
           ("summary", e)])
    ∧ (∀ s, v = .str s → genBody v = .ok (generate_detailed_info v))
    ∧ (∀ e, v = .nonStr e → genBody v = .error e) := by
  refine ⟨fun e h => ?_, fun s h => ?_, fun e h => ?_⟩
  · simp [generate_detailed_info, h]
  · subst h; rfl
  · subst h; rfl

theorem summarizer_never_raises_witness :
    generate_detailed_info (.nonStr "unexpected object")
      = [("description", "Error generating detailed information."),
         ("summary", "unexpected object")]
    ∧ genBody (.str "hello")
      = .ok (generate_detailed_info (.str "hello")) :=
  ⟨(summarizer_never_raises (.nonStr "unexpected object")).1
      "unexpected object" rfl,
   (summarizer_never_raises (.str "hello")).2.1 "hello" rfl⟩

end FNA

namespace FNA

/-- Claim C2: an error raised by the extraction or transcription stage is
caught by `process_video` and replaced by the degraded dict with the fixed
description and the stringified error as summary; the pipeline still
renders and returns the document path whenever the renderer succeeds, and
the only errors the pipeline propagates are renderer errors. -/
theorem pipeline_degrades_and_renders (env : Env) (p : String) :
    (∀ e, env.ffmpeg p = .error e →
      process_video env p
        = [("description", "Error processing video."), ("summary", e)])
    ∧ (∀ c e, env.ffmpeg p = .ok c → env.recog (audioPathOf p) = .raised e →
      process_video env p
        = [("description", "Error processing video."), ("summary", e)])
    ∧ (env.render (pdfElements (dictGet (process_video env p) "description" "")
          (dictGet (process_video env p) "summary" "No summary available."))
        = .ok () →
      pipeline env p = .ok pdfPath)
    ∧ (∀ msg, pipeline env p = .error msg →
      ∃ e, msg = "Internal Server Error: " ++ e
        ∧ env.render (pdfElements (dictGet (process_video env p) "description" "")
            (dictGet (process_video env p) "summary" "No summary available."))
          = .error e) := by
  refine ⟨fun e h => ?_, fun c e h1 h2 => ?_, fun h => ?_, fun msg h => ?_⟩
  · simp [process_video, extract_audio, h]
  · simp [process_video, extract_audio, speech_to_text, h1, h2]
  · simp [pipeline, generate_pdf, h]
  · rw [pipeline, generate_pdf] at h
    cases hr : env.render (pdfElements (dictGet (process_video env p) "description" "")
        (dictGet (process_video env p) "summary" "No summary available.")) with
    | ok u => rw [hr] at h; cases h
    | error e =>
        rw [hr] at h
        simp only [Except.error.injEq] at h
        exact ⟨e, h.symm, rfl⟩

/-- Environment whose ffmpeg launch raises (e.g. executable missing). -/
def envLaunchFail : Env :=
  ⟨fun _ => .error "ffmpeg not found", fun _ => .unknownValue, fun _ => .ok ()⟩

theorem pipeline_degrades_and_renders_witness :
    process_video envLaunchFail "uploads/v.mp4"
      = [("description", "Error processing video."),
         ("summary", "ffmpeg not found")]
    ∧ pipeline envLaunchFail "uploads/v.mp4" = .ok pdfPath :=
  ⟨(pipeline_degrades_and_renders envLaunchFail "uploads/v.mp4").1
      "ffmpeg not found" rfl,
   (pipeline_degrades_and_renders envLaunchFail "uploads/v.mp4").2.2.1 rfl⟩

/-- Claim C9: when rendering succeeds, `generate_pdf` returns the fixed
output path `processed/video_summary.pdf` for every input dict, and the
rendered element sequence contains, in order: the title, the literal
heading "Description:", the description body, the literal heading
"Summary:", and the summary body. -/
theorem renderer_layout_and_path (env : Env) (data : Dict)
    (h : env.render (pdfElements (dictGet data "description" "")
        (dictGet data "summary" "No summary available.")) = .ok ()) :
    generate_pdf env data = .ok "processed/video_summary.pdf"
    ∧ [Element.title "Video Analysis Summary",
       Element.heading "Description:",
       Element.body (dictGet data "description" ""),
       Element.heading "Summary:",
       Element.body (dictGet data "summary" "No summary available.")].Sublist
        (pdfElements (dictGet data "description" "")
          (dictGet data "summary" "No summary available.")) := by
  constructor
  · simp [generate_pdf, pdfPath, h]
  · exact .cons₂ _ (.cons _ (.cons₂ _ (.cons _ (.cons₂ _ (.cons _
      (.cons₂ _ (.cons _ (.cons₂ _ .slnil))))))))

theorem renderer_layout_and_path_witness :
    generate_pdf envRecogOk [("description", "d"), ("summary", "s")]
      = .ok "processed/video_summary.pdf"
    ∧ [Element.title "Video Analysis Summary",
       Element.heading "Description:",
       Element.body (dictGet [("description", "d"), ("summary", "s")] "description" ""),
       Element.heading "Summary:",
       Element.body (dictGet [("description", "d"), ("summary", "s")] "summary" "No summary available.")].Sublist
        (pdfElements (dictGet [("description", "d"), ("summary", "s")] "description" "")
          (dictGet [("description", "d"), ("summary", "s")] "summary" "No summary available.")) :=
  renderer_layout_and_path envRecogOk [("description", "d"), ("summary", "s")] rfl

/-- On every path, `process_video` yields a two-entry dict with the keys
`description` and `summary` in this order. -/
theorem process_video_shape (env : Env) (p : String) :
    ∃ dsc sm, process_video env p = [("description", dsc), ("summary", sm)] := by
  cases hx : extract_audio env p with
  | error e => exact ⟨"Error processing video.", e, by simp [process_video, hx]⟩
  | ok ap =>
    cases hs : speech_to_text env ap with
    | error e => exact ⟨"Error processing video.", e, by simp [process_video, hx, hs]⟩
    | ok t =>
        refine ⟨t ++ ".",
          summaryPreamble ++ String.intercalate " " (relevantExplanations t)
            ++ " " ++ summaryClosing, ?_⟩
        simp [process_video, hx, hs, generate_detailed_info, genBody]

/-- Claim C10: on both its success and its error paths `process_video`
returns a dict with exactly the keys `description` and `summary`, so the
fallback defaults of `generate_pdf` are never exercised when it is invoked
through the pipeline: `dictGet` returns the stored values for every
default. -/
theorem process_video_dict_keys (env : Env) (p : String) :
    (process_video env p).map Prod.fst = ["description", "summary"]
    ∧ ∃ dsc sm,
        (process_video env p).lookup "description" = some dsc
        ∧ (process_video env p).lookup "summary" = some sm
        ∧ ∀ d1 d2, dictGet (process_video env p) "description" d1 = dsc
            ∧ dictGet (process_video env p) "summary" d2 = sm := by
  obtain ⟨dsc, sm, hshape⟩ := process_video_shape env p
  rw [hshape]
  exact ⟨rfl, dsc, sm, rfl, rfl, fun d1 d2 => ⟨rfl, rfl⟩⟩

end FNA

namespace FNA

/-- Environment in which the ffmpeg launch raises an exception whose
`str()` is the empty string (e.g. `OSError()` with no arguments). -/
def envEmptyErr : Env :=
  ⟨fun _ => .error "", fun _ => .unknownValue, fun _ => .ok ()⟩

/-- Claim C8 counterexample: a pipeline run that reaches the renderer —
`generate_pdf` is invoked and returns the document path — in which the
ReportContent's `summary` field is the empty string: the caught upstream
exception stringifies to `""`, which `process_video` stores verbatim. -/
theorem summary_nonempty_cex :
    pipeline envEmptyErr "uploads/v.mp4" = .ok pdfPath
    ∧ (process_video envEmptyErr "uploads/v.mp4").lookup "summary" = some ""
    ∧ dictGet (process_video envEmptyErr "uploads/v.mp4") "summary"
        "No summary available." = "" :=
  ⟨rfl, rfl, rfl⟩

/-- Claim C8 as amended: on every path that reaches the renderer the
`summary` field is either the synthesized prose — which is never empty —
or the verbatim text of the caught upstream error, which is non-empty
exactly when that error text is. -/
theorem summary_prose_or_error (env : Env) (p : String) :
    ∃ s, (process_video env p).lookup "summary" = some s
      ∧ ((∃ t, s = summaryPreamble ++ String.intercalate " " (relevantExplanations t)
              ++ " " ++ summaryClosing ∧ s ≠ "")
         ∨ ∃ e, process_video env p
              = [("description", "Error processing video."), ("summary", e)]
            ∧ s = e) := by
  cases hx : extract_audio env p with
  | error e =>
      exact ⟨e, by simp only [process_video, hx]; rfl,
        Or.inr ⟨e, by simp [process_video, hx], rfl⟩⟩
  | ok ap =>
    cases hs : speech_to_text env ap with
    | error e =>
        exact ⟨e, by simp only [process_video, hx, hs]; rfl,
          Or.inr ⟨e, by simp [process_video, hx, hs], rfl⟩⟩
    | ok t =>
        refine ⟨summaryPreamble ++ String.intercalate " " (relevantExplanations t)
            ++ " " ++ summaryClosing,
          by simp only [process_video, hx, hs]; rfl,
          Or.inl ⟨t, rfl, ?_⟩⟩
        intro hEq
        have hd := congrArg String.data hEq
        simp only [String.data_append, List.append_assoc] at hd
        have h1 := (List.append_eq_nil.mp hd).1
        exact absurd h1 (by decide)

end FNA

namespace FNA

/-- Claim C1: the Summarizer scans the transcript for each of the three
configured keywords case-insensitively as a substring; the collected
explanations form a subsequence of the mapping's values (enumeration
order), each matched explanation occurs exactly once however often and in
whatever case its keyword occurs, and transcripts equal up to case yield
the same explanation list. -/
theorem summarizer_keyword_scan (t t2 : String)
    (h : strLower t = strLower t2) :
    (relevantExplanations t).Sublist (explanations.map Prod.snd)
    ∧ ((relevantExplanations t).count
        "This video discusses ongoing tensions related to regional conflicts, which have drawn international attention."
        = if strContains (strLower t) "conflict" then 1 else 0)
    ∧ ((relevantExplanations t).count
        "The environmental impacts mentioned in the transcript highlight critical issues facing our planet today."
        = if strContains (strLower t) "environment" then 1 else 0)
    ∧ ((relevantExplanations t).count
        "Economic discussions often relate to market fluctuations and their broader implications for global trade."
        = if strContains (strLower t) "economy" then 1 else 0)
    ∧ relevantExplanations t = relevantExplanations t2 := by
  have hins : relevantExplanations t = relevantExplanations t2 := by
    unfold relevantExplanations
    rw [h]
  have hsub : (relevantExplanations t).Sublist (explanations.map Prod.snd) :=
    (List.filter_sublist explanations).map Prod.snd
  refine ⟨hsub, ?_, ?_, ?_, hins⟩ <;>
    cases hc : strContains (strLower t) "conflict" <;>
    cases he : strContains (strLower t) "environment" <;>
    cases hq : strContains (strLower t) "economy" <;>
    simp [relevantExplanations, explanations, hc, he, hq, List.count_cons]

theorem summarizer_keyword_scan_witness :
    (relevantExplanations "The Economy!").Sublist (explanations.map Prod.snd)
    ∧ ((relevantExplanations "The Economy!").count
        "This video discusses ongoing tensions related to regional conflicts, which have drawn international attention."
        = if strContains (strLower "The Economy!") "conflict" then 1 else 0)
    ∧ ((relevantExplanations "The Economy!").count
        "The environmental impacts mentioned in the transcript highlight critical issues facing our planet today."
        = if strContains (strLower "The Economy!") "environment" then 1 else 0)
    ∧ ((relevantExplanations "The Economy!").count
        "Economic discussions often relate to market fluctuations and their broader implications for global trade."
        = if strContains (strLower "The Economy!") "economy" then 1 else 0)
    ∧ relevantExplanations "The Economy!" = relevantExplanations "tHE eCONOMY!" :=
  summarizer_keyword_scan "The Economy!" "tHE eCONOMY!" (by decide)

end FNA

